import Mathlib

/-!
Verification of the session/authentication and data-synchronization core of an
open-banking dashboard client.  The JavaScript/TypeScript sources are shallowly
embedded: module-level mutable state becomes explicit state passing, `await`ed
network calls become environment oracles (streams of responses indexed by call
count), thrown exceptions become `Except`, and JS numbers appearing in the
balance pipeline become `JSNum` (a rational or NaN).  Parsed dates are `Int`
millisecond timestamps; a date string is modelled by what the code observes of
it — its truthiness and the result of `new Date` on it, including the Invalid
Date case on which `toISOString()` throws.
-/

namespace BankCore

/-! ## JavaScript string and number primitives used by the embedded code -/

/-- Substring test on character lists: true when `pat` occurs inside the list
(JS `String.prototype.includes`; an empty pattern matches). -/
def hasSub (pat : List Char) : List Char → Bool
  | [] => pat.isEmpty
  | c :: rest => pat.isPrefixOf (c :: rest) || hasSub pat rest

/-- JS `s.includes(pat)`. -/
def strContains (s pat : String) : Bool := hasSub pat.data s.data

/-- JS `o || d` on an optional string: the fallback `d` is used when the value
is absent (`undefined`/`null`) or empty (falsy). -/
def jsOr (o : Option String) (d : String) : String :=
  match o with
  | some s => if s = "" then d else s
  | none => d

/-- JS truthiness of an optional string (`undefined`, `null` and `""` are falsy). -/
def optTruthy (o : Option String) : Bool :=
  match o with
  | some s => s ≠ ""
  | none => false

/-- String interpolation of a possibly-undefined value (JS renders `undefined`). -/
def optStr (o : Option String) : String :=
  match o with
  | some s => s
  | none => "undefined"

/-- A JS number as the balance pipeline uses it: NaN or a rational value.
(The embedded code only produces numbers via `parseFloat` and compares,
negates and formats them, so binary-float rounding never becomes observable
at the granularity of the specified behaviour.) -/
inductive JSNum where
  | nan : JSNum
  | num (q : ℚ) : JSNum
  deriving DecidableEq, Repr

/-- Numeric value of a block of decimal digits. -/
def digitsVal (l : List Char) : Nat :=
  l.foldl (fun acc c => acc * 10 + (c.toNat - ('0').toNat)) 0

/-- Exponent part accepted by `parseFloat` after the mantissa: `e`/`E`, an
optional sign and digits; with no digits the exponent is ignored (JS parses
the longest valid numeric prefix). -/
def parseExp : List Char → Int
  | [] => 0
  | c :: rest =>
    if c = 'e' || c = 'E' then
      match rest with
      | '-' :: ds =>
        let d := ds.takeWhile Char.isDigit
        if d.isEmpty then 0 else -(digitsVal d : Int)
      | '+' :: ds =>
        let d := ds.takeWhile Char.isDigit
        if d.isEmpty then 0 else (digitsVal d : Int)
      | ds =>
        let d := ds.takeWhile Char.isDigit
        if d.isEmpty then 0 else (digitsVal d : Int)
    else 0

/-- JS `parseFloat`: skip leading whitespace, then parse the longest prefix of
the form `[+-]? digits [. digits]? ([eE][+-]?digits)?`; if no digit is found the
result is NaN.  (The `Infinity` literal, never produced by the banking API, is
not modelled.) -/
def parseFloat (s : String) : JSNum :=
  let l := s.data.dropWhile (fun c => c = ' ' || c = '\t' || c = '\n' || c = '\r')
  let sign : ℚ := match l with
    | '-' :: _ => -1
    | _ => 1
  let l1 := match l with
    | '-' :: rest => rest
    | '+' :: rest => rest
    | _ => l
  let ip := l1.takeWhile Char.isDigit
  let l2 := l1.dropWhile Char.isDigit
  let fp := match l2 with
    | '.' :: rest => rest.takeWhile Char.isDigit
    | _ => []
  let l3 := match l2 with
    | '.' :: rest => rest.dropWhile Char.isDigit
    | _ => l2
  if ip.isEmpty && fp.isEmpty then JSNum.nan
  else
    let mant : ℚ := (digitsVal (ip ++ fp) : ℚ) / (10 : ℚ) ^ fp.length
    let e := parseExp l3
    let scaled : ℚ := if 0 ≤ e then mant * (10 : ℚ) ^ e.toNat else mant / (10 : ℚ) ^ (-e).toNat
    JSNum.num (sign * scaled)

/-- Two-digit zero padding for the fractional part. -/
def pad2 (n : Nat) : String := if n < 10 then "0" ++ toString n else toString n

/-- JS `x.toFixed(2)`: NaN prints as "NaN"; otherwise round to the nearest
hundredth, ties toward the larger value, and print with two decimals.  (JS
would print "-0.00" when a negative value rounds to zero; that corner is not
reachable from the banking data and is rendered "0.00" here.) -/
def toFixed2 : JSNum → String
  | JSNum.nan => "NaN"
  | JSNum.num q =>
    let n : Int := round (q * 100)
    if n < 0 then "-" ++ toString ((-n) / 100) ++ "." ++ pad2 ((-n) % 100).toNat
    else toString (n / 100) ++ "." ++ pad2 (n % 100).toNat

/-- JS `x >= 0` (false for NaN). -/
def jsGe0 : JSNum → Bool
  | JSNum.nan => false
  | JSNum.num q => 0 ≤ q

/-- JS `Math.abs` (NaN propagates). -/
def jsAbs : JSNum → JSNum
  | JSNum.nan => JSNum.nan
  | JSNum.num q => JSNum.num |q|

/-! ## Session Store: the token state of `DirectLoginClient` (src/lib/api-client.ts)

The client holds an in-memory `token`, mirrors it in the client-visible
`obp_token` cookie and keeps an `obp_authenticated` flag in localStorage.
Cookie and localStorage writes are modelled as always succeeding (the source
logs and swallows their failures, leaving the in-memory state authoritative). -/

structure ApiClientState where
  token : Option String
  cookieToken : Option String
  localAuth : Bool
  deriving DecidableEq, Repr

/-- `setTokenAsync(token, saveToCookie)` of src/lib/api-client.ts lines 86-128,
in the browser context: a falsy token (null or empty) clears the in-memory
token, removes the cookie under all path variants and drops the localStorage
flag; a non-empty token is stored and, when `saveToCookie`, written to a 7-day
strict-same-site cookie together with the flag. -/
def setTokenAsync (t : Option String) (saveToCookie : Bool) (st : ApiClientState) : ApiClientState :=
  if t = none ∨ t = some "" then
    { token := none, cookieToken := none, localAuth := false }
  else
    { token := t,
      cookieToken := if saveToCookie then t else st.cookieToken,
      localAuth := if saveToCookie then true else st.localAuth }

/-- `setToken` discards the promise of `setTokenAsync` with the default
`saveToCookie = true`. -/
def setToken (t : Option String) (st : ApiClientState) : ApiClientState :=
  setTokenAsync t true st

/-- `hasToken()` of src/lib/api-client.ts lines 23-25: the in-memory token is
present and non-empty. -/
def hasToken (st : ApiClientState) : Bool :=
  match st.token with
  | some s => s ≠ ""
  | none => false

/-! ## Resource Cache (src/hooks/use-banking-data.ts lines 59-93)

The module-level `cache : Record<string, CachedData>` becomes an association
list with at most one entry per key; `Date.now()` becomes an explicit `now`
argument; a producer that may throw becomes an `Except`. -/

def CACHE_EXPIRATION : Int := 5 * 60 * 1000

/-- One entry per key, as in the JS record. -/
def Cache (α : Type) : Type := List (String × Int × α)

/-- Read `cache[key]`. -/
def cacheLookup {α : Type} (c : Cache α) (k : String) : Option (Int × α) :=
  match c with
  | [] => none
  | (k₂, ts, v) :: rest => if k₂ = k then some (ts, v) else cacheLookup rest k

/-- Write `cache[key] = { timestamp, data }`, overwriting any previous entry. -/
def cacheInsert {α : Type} (c : Cache α) (k : String) (ts : Int) (v : α) : Cache α :=
  match c with
  | [] => [(k, ts, v)]
  | (k₂, ts₂, v₂) :: rest =>
    if k₂ = k then (k, ts, v) :: rest else (k₂, ts₂, v₂) :: cacheInsert rest k ts v

/-- `getCachedOrFetch(cacheKey, fetchFn)` of src/hooks/use-banking-data.ts
lines 71-93.  Returns the payload, the updated cache, and whether the producer
was invoked; a producer failure propagates uncached.  A live entry
(`now - timestamp < CACHE_EXPIRATION`) is returned without invoking the
producer. -/
def getCachedOrFetch {ε α : Type} (now : Int) (k : String) (produce : Except ε α)
    (c : Cache α) : Except ε (α × Cache α × Bool) :=
  match cacheLookup c k with
  | some (ts, v) =>
    if now - ts < CACHE_EXPIRATION then Except.ok (v, c, false)
    else produce.map fun v₂ => (v₂, cacheInsert c k now v₂, true)
  | none => produce.map fun v₂ => (v₂, cacheInsert c k now v₂, true)

theorem cacheLookup_insert_self {α : Type} (c : Cache α) (k : String) (ts : Int) (v : α) :
    cacheLookup (cacheInsert c k ts v) k = some (ts, v) := by
  induction c with
  | nil => simp [cacheInsert, cacheLookup]
  | cons hd tl ih =>
    obtain ⟨k₂, ts₂, v₂⟩ := hd
    by_cases h : k₂ = k
    · simp [cacheInsert, cacheLookup, h]
    · simp [cacheInsert, cacheLookup, h, ih]

theorem cacheLookup_insert_ne {α : Type} (c : Cache α) (k k₂ : String) (ts : Int) (v : α)
    (h : k ≠ k₂) : cacheLookup (cacheInsert c k ts v) k₂ = cacheLookup c k₂ := by
  induction c with
  | nil => simp [cacheInsert, cacheLookup, h]
  | cons hd tl ih =>
    obtain ⟨k₃, ts₃, v₃⟩ := hd
    by_cases h₃ : k₃ = k
    · subst h₃; simp [cacheInsert, cacheLookup, h]
    · simp [cacheInsert, cacheLookup, h₃, ih]

end BankCore

namespace BankCore

/-! ## Claim theorems for the Session Store and the Resource Cache -/

/-- C8: for every non-empty bearer token `t`, `setCredential(t)` (that is,
`setToken t`) followed by `hasCredential()` (`hasToken`) returns true, and
`setCredential(null)` followed by `hasCredential()` returns false, from any
prior client state. -/
theorem setToken_hasToken_C8 (t : String) (h : t ≠ "") (st st₂ : ApiClientState) :
    hasToken (setToken (some t) st) = true ∧ hasToken (setToken none st₂) = false := by
  constructor
  · simp [setToken, setTokenAsync, hasToken, h]
  · simp [setToken, setTokenAsync, hasToken]

theorem setToken_hasToken_C8_witness :
    hasToken (setToken (some "tok") ⟨none, none, false⟩) = true ∧
      hasToken (setToken none ⟨some "tok", some "tok", true⟩) = false :=
  setToken_hasToken_C8 "tok" (by decide) ⟨none, none, false⟩ ⟨some "tok", some "tok", true⟩

/-- C3: starting from a cache with no entry for `k`, a first `getOrFetch(k, p)`
at time `t₁` invokes the producer; a second call within the TTL window returns
the cached payload without invoking the producer (one invocation in total),
while a second call at or past TTL expiry invokes the producer again (two
invocations in total). -/
theorem cache_idempotence_C3 {α : Type} (k : String) (v₁ v₂ : α) (t₁ t₂ : Int)
    (c₀ : Cache α) (h₀ : cacheLookup c₀ k = none) :
    getCachedOrFetch t₁ k (Except.ok v₁ : Except String α) c₀ =
        Except.ok (v₁, cacheInsert c₀ k t₁ v₁, true) ∧
      (t₂ - t₁ < CACHE_EXPIRATION →
        getCachedOrFetch t₂ k (Except.ok v₂ : Except String α) (cacheInsert c₀ k t₁ v₁) =
          Except.ok (v₁, cacheInsert c₀ k t₁ v₁, false)) ∧
      (CACHE_EXPIRATION ≤ t₂ - t₁ →
        getCachedOrFetch t₂ k (Except.ok v₂ : Except String α) (cacheInsert c₀ k t₁ v₁) =
          Except.ok (v₂, cacheInsert (cacheInsert c₀ k t₁ v₁) k t₂ v₂, true)) := by
    refine ⟨?_, ?_, ?_⟩
    · simp [getCachedOrFetch, h₀, Except.map]
    · intro hlt
      simp [getCachedOrFetch, cacheLookup_insert_self, hlt]
    · intro hge
      have hnot : ¬ (t₂ - t₁ < CACHE_EXPIRATION) := not_lt.mpr hge
      simp [getCachedOrFetch, cacheLookup_insert_self, hnot, Except.map]

theorem cache_idempotence_C3_witness :
    getCachedOrFetch 1000 "banks" (Except.ok 7 : Except String Nat) ([] : Cache Nat) =
        Except.ok (7, cacheInsert [] "banks" 1000 7, true) ∧
      getCachedOrFetch 1500 "banks" (Except.ok 8 : Except String Nat) (cacheInsert [] "banks" 1000 7) =
        Except.ok (7, cacheInsert [] "banks" 1000 7, false) ∧
      getCachedOrFetch 400000 "banks" (Except.ok 8 : Except String Nat) (cacheInsert [] "banks" 1000 7) =
        Except.ok (8, cacheInsert (cacheInsert [] "banks" 1000 7) "banks" 400000 8, true) :=
  ⟨(cache_idempotence_C3 "banks" 7 8 1000 1500 [] (by decide)).1,
    (cache_idempotence_C3 "banks" 7 8 1000 1500 [] (by decide)).2.1 (by decide),
    (cache_idempotence_C3 "banks" 7 8 1000 400000 [] (by decide)).2.2 (by decide)⟩

end BankCore

namespace BankCore

/-! ## Upstream record shapes (src/lib/open-banking-api.ts, src/lib/transformers.ts)

Fields the transformation code reads are modelled with `Option` for the
`undefined`/missing case; `Math.random()`-based fallback identifiers are
modelled by a fixed placeholder (no claim depends on their value). -/

structure OBPBalance where
  amount : Option String
  currency : Option String
  deriving DecidableEq, Repr

structure OBPRouting where
  scheme : Option String
  address : Option String
  deriving DecidableEq, Repr

structure OBPView where
  id : Option String
  deriving DecidableEq, Repr

structure OBPAccount where
  id : Option String
  label : Option String
  bank_id : Option String
  account_type : Option String
  balance : Option OBPBalance
  account_routings : Option (List OBPRouting)
  views_available : Option (List OBPView)
  deriving DecidableEq, Repr

/-- Placeholder for the `unknown-` + `Math.random()` fallback identifier. -/
def UNKNOWN_ID : String := "unknown-random"

/-- The display account record produced by `transformAccounts`. -/
structure Account where
  id : String
  title : String
  description : String
  balance : String
  currency : String
  type : String
  accountNumber : String
  bankId : String
  viewId : String
  deriving DecidableEq, Repr

/-- Account classification of src/lib/transformers.ts lines 13-38: keyword
matching on the lowercased label and account type, defaulting to checking. -/
def accountTypeOf (account : OBPAccount) : String :=
  let label := (account.label.getD "").toLower
  let atype := (account.account_type.getD "").toLower
  if strContains label "saving" || strContains label "reserve" ||
      strContains atype "saving" then "savings"
  else if strContains label "invest" || strContains label "stock" ||
      strContains label "portfolio" || strContains atype "investment" then "investment"
  else if strContains label "credit" || strContains label "loan" ||
      strContains label "debt" || strContains atype "loan" ||
      strContains atype "credit" then "debt"
  else "checking"

/-- Balance formatting of src/lib/transformers.ts lines 40-56: when the balance
object and its amount are present, `parseFloat(amount).toFixed(2)`; otherwise
the safe default "0.00".  Neither `parseFloat` nor `toFixed` can throw here, so
the catch branch is unreachable. -/
def formattedBalanceOf (account : OBPAccount) : String :=
  match account.balance with
  | some bal =>
    match bal.amount with
    | some amt => toFixed2 (parseFloat amt)
    | none => "0.00"
  | none => "0.00"

/-- Routing lookup of src/lib/transformers.ts lines 58-61. -/
def accountNumberOf (account : OBPAccount) : String :=
  match account.account_routings with
  | some rs =>
    match rs.find? (fun r => r.scheme == some "IBAN" || r.scheme == some "AccountNumber") with
    | some r => jsOr r.address ""
    | none => ""
  | none => ""

/-- View lookup of src/lib/transformers.ts lines 63-66: the first available
view whose id contains "owner", defaulting to "owner". -/
def viewIdOf (account : OBPAccount) : String :=
  match account.views_available with
  | some vs =>
    match vs.find? (fun v => match v.id with
      | some i => strContains i "owner"
      | none => false) with
    | some v => jsOr v.id "owner"
    | none => "owner"
  | none => "owner"

/-- One element of the `map` in `transformAccounts`
(src/lib/transformers.ts lines 12-79). -/
def transformAccount (account : OBPAccount) : Account :=
  { id := jsOr account.id UNKNOWN_ID,
    title := jsOr account.label "Unnamed Account",
    description := jsOr account.account_type "",
    balance := formattedBalanceOf account,
    currency := jsOr (account.balance.bind OBPBalance.currency) "USD",
    type := accountTypeOf account,
    accountNumber := accountNumberOf account,
    bankId := jsOr account.bank_id "",
    viewId := viewIdOf account }

/-- `transformAccounts` (src/lib/transformers.ts lines 4-80): a missing input
list yields `[]`; otherwise every element maps to one display record. -/
def transformAccounts (obpAccounts : Option (List OBPAccount)) : List Account :=
  match obpAccounts with
  | none => []
  | some accounts => accounts.map transformAccount

end BankCore

namespace BankCore

/-! ## Transaction transformation (src/lib/transformers.ts lines 82 onward)

The transformer observes of the `completed` date string only its truthiness
and the result of `new Date(completed)`, so the string is modelled by that
observable class (`CompletedField`); `new Date()` (the current time, used for
default dates) is the explicit `now` argument.  Because `date.toISOString()`
throws a RangeError on an Invalid Date — outside any try/catch, aborting the
whole `map` — the transformation is `Except`-valued.  The locale-formatted
display `timestamp` field (a presentation-only string derived from the same
date, via throw-free formatting calls) is not modelled; all other output
fields are. -/

/-- The `completed` date string, by what the transformer observes of it:
`empty` is the falsy empty string (the `if (completed)` guard fails and the
default date is kept); `parsed ms` a truthy string that `new Date` parses to
`ms` milliseconds; `unparseable` a truthy string yielding an Invalid Date
(for example "not-a-date"), on which `toISOString()` later throws. -/
inductive CompletedField where
  | empty : CompletedField
  | parsed (ms : Int) : CompletedField
  | unparseable : CompletedField
  deriving DecidableEq, Repr

structure OBPValue where
  amount : Option String
  currency : Option String
  deriving DecidableEq, Repr

structure OBPDetails where
  type : Option String
  description : Option String
  completed : Option CompletedField
  value : Option OBPValue
  deriving DecidableEq, Repr

structure OBPHolder where
  name : Option String
  deriving DecidableEq, Repr

structure OBPOtherAccount where
  holder : Option OBPHolder
  deriving DecidableEq, Repr

structure OBPMeta where
  narrative : Option String
  deriving DecidableEq, Repr

structure OBPTransaction where
  id : Option String
  details : Option OBPDetails
  metadata : Option OBPMeta
  other_account : Option OBPOtherAccount
  deriving DecidableEq, Repr

/-- The display transaction record produced by `transformTransactions`
(`date` is the millisecond timestamp whose `toISOString` the source stores). -/
structure Txn where
  id : String
  title : String
  amount : String
  type : String
  category : String
  icon : String
  status : String
  description : String
  otherParty : String
  date : Int
  deriving DecidableEq, Repr

/-- Keyword-based categorization of src/lib/transformers.ts lines 116-146:
an ordered chain over the lowercased description and counterparty name. -/
def categoryOf (description otherParty : String) : String :=
  if strContains description "shop" || strContains description "store" ||
      strContains description "purchase" || strContains description "buy" ||
      strContains description "mart" || strContains otherParty "shop" ||
      strContains otherParty "store" || strContains otherParty "retail" then "shopping"
  else if strContains description "food" || strContains description "restaurant" ||
      strContains description "cafe" || strContains description "coffee" ||
      strContains description "lunch" || strContains description "dinner" ||
      strContains description "breakfast" || strContains otherParty "restaurant" ||
      strContains otherParty "cafe" then "food"
  else if strContains description "transport" || strContains description "uber" ||
      strContains description "taxi" || strContains description "train" ||
      strContains description "bus" || strContains description "fare" ||
      strContains description "travel" || strContains otherParty "transport" ||
      strContains otherParty "travel" then "transport"
  else if strContains description "entertainment" || strContains description "movie" ||
      strContains description "subscription" || strContains description "netflix" ||
      strContains description "spotify" || strContains description "game" ||
      strContains description "ticket" || strContains otherParty "entertainment" ||
      strContains otherParty "cinema" then "entertainment"
  else if strContains description "bill" || strContains description "utility" ||
      strContains description "electric" || strContains description "water" ||
      strContains description "gas" || strContains description "internet" ||
      strContains description "phone" || strContains otherParty "utility" ||
      strContains otherParty "telecom" then "bills"
  else if strContains description "salary" || strContains description "payroll" ||
      strContains description "income" || strContains description "wage" ||
      strContains otherParty "employer" || strContains otherParty "payroll" then "income"
  else if strContains description "transfer" || strContains description "sent" ||
      strContains description "received" then "transfer"
  else "other"

/-- The default record returned for a malformed element (missing transaction,
missing `details`, or missing `details.value`): src/lib/transformers.ts
lines 91-106. -/
def unknownTxn (now : Int) (tid : Option String) : Txn :=
  { id := jsOr tid UNKNOWN_ID,
    title := "Unknown Transaction",
    amount := "0.00",
    type := "outgoing",
    category := "other",
    icon := "other",
    status := "completed",
    description := "",
    otherParty := "",
    date := now }

/-- The main arm of the `map` in `transformTransactions`, for an element whose
`details.value` is present.  The `date` of lines 148-157: the default current
date unless `completed` is truthy, in which case `new Date(completed)`; for a
truthy unparseable string the try/catch around the constructor catches
nothing (an Invalid Date is produced without throwing) and the later
`date.toISOString()` in the returned record — the last-evaluated field,
outside any try — throws a RangeError. -/
def transformTxnMain (now : Int) (tr : OBPTransaction) (d : OBPDetails) (v : OBPValue) :
    Except String Txn :=
  let amountNum := parseFloat (jsOr v.amount "0")
  let txnType := if jsGe0 amountNum then "incoming" else "outgoing"
  let description := (jsOr d.description (jsOr (tr.metadata.bind OBPMeta.narrative) "")).toLower
  let otherParty := (jsOr (tr.other_account.bind (fun oa => oa.holder.bind OBPHolder.name)) "").toLower
  let category := categoryOf description otherParty
  let date : Option Int := match d.completed with
    | some CompletedField.empty => some now
    | some (CompletedField.parsed ms) => some ms
    | some CompletedField.unparseable => none
    | none => some now
  let title₀ := jsOr (tr.other_account.bind (fun oa => oa.holder.bind OBPHolder.name))
    (jsOr d.description "Transaction")
  let transactionType := jsOr d.type ""
  let title := if transactionType ≠ "" && !(strContains title₀ transactionType) then
      title₀ ++ " (" ++ transactionType ++ ")"
    else title₀
  match date with
  | none => Except.error "RangeError: invalid time value"
  | some dateMs =>
    Except.ok
      { id := jsOr tr.id UNKNOWN_ID,
        title := title,
        amount := toFixed2 (jsAbs amountNum),
        type := txnType,
        category := category,
        icon := category,
        status := "completed",
        description := jsOr d.description (jsOr (tr.metadata.bind OBPMeta.narrative) ""),
        otherParty := jsOr (tr.other_account.bind (fun oa => oa.holder.bind OBPHolder.name)) "",
        date := dateMs }

/-- One element of the `map` in `transformTransactions`: the guard of
src/lib/transformers.ts line 91 falls back to the default record (whose
`new Date().toISOString()` cannot throw) when the element, its `details` or
its `details.value` is missing. -/
def transformTransaction (now : Int) (t : Option OBPTransaction) : Except String Txn :=
  match t with
  | none => Except.ok (unknownTxn now none)
  | some tr =>
    match tr.details with
    | none => Except.ok (unknownTxn now tr.id)
    | some d =>
      match d.value with
      | none => Except.ok (unknownTxn now tr.id)
      | some v => transformTxnMain now tr d v

/-- JS `Array.prototype.map` with a callback that may throw: the first thrown
element aborts the whole map and the exception propagates. -/
def mapThrow {α β : Type} (f : α → Except String β) : List α → Except String (List β)
  | [] => Except.ok []
  | a :: rest =>
    match f a with
    | Except.error e => Except.error e
    | Except.ok b =>
      match mapThrow f rest with
      | Except.error e => Except.error e
      | Except.ok bs => Except.ok (b :: bs)

/-- `transformTransactions` (src/lib/transformers.ts lines 82 onward): a
missing or non-array input yields `[]`; otherwise every element (which may
itself be null) maps to one display record, except that an element whose
date formatting throws aborts the whole call. -/
def transformTransactions (now : Int) (l : Option (List (Option OBPTransaction))) :
    Except String (List Txn) :=
  match l with
  | none => Except.ok []
  | some txs => mapThrow (transformTransaction now) txs

/-- An element is malformed when the guard of line 91 fires. -/
def malformedTxn : Option OBPTransaction → Bool
  | none => true
  | some tr =>
    match tr.details with
    | none => true
    | some d => d.value.isNone

/-- An element on which the transformer throws: `details` and `details.value`
present but `completed` a truthy unparseable date string. -/
def throwsOnDate : Option OBPTransaction → Bool
  | none => false
  | some tr =>
    match tr.details with
    | none => false
    | some d =>
      match d.value with
      | none => false
      | some _ =>
        match d.completed with
        | some CompletedField.unparseable => true
        | _ => false

/-- The optional id the default record is built from. -/
def txnIdOf : Option OBPTransaction → Option String
  | none => none
  | some tr => tr.id

end BankCore

namespace BankCore

/-! ## Claim theorems for the transformation collaborator -/

theorem malformed_transformTransaction (now : Int) (t : Option OBPTransaction)
    (h : malformedTxn t = true) :
    transformTransaction now t = Except.ok (unknownTxn now (txnIdOf t)) := by
  match t with
  | none => rfl
  | some tr =>
    match htr : tr.details with
    | none => simp [transformTransaction, htr, txnIdOf]
    | some d =>
      match hv : d.value with
      | none => simp [transformTransaction, htr, hv, txnIdOf]
      | some v => simp [malformedTxn, htr, hv] at h

theorem transformTransaction_ok (now : Int) (t : Option OBPTransaction)
    (h : throwsOnDate t = false) :
    ∃ x, transformTransaction now t = Except.ok x := by
  match t with
  | none => exact ⟨unknownTxn now none, rfl⟩
  | some tr =>
    match htr : tr.details with
    | none => exact ⟨unknownTxn now tr.id, by simp [transformTransaction, htr]⟩
    | some d =>
      match hv : d.value with
      | none => exact ⟨unknownTxn now tr.id, by simp [transformTransaction, htr, hv]⟩
      | some v =>
        simp only [throwsOnDate, htr, hv] at h
        simp only [transformTransaction, htr, hv, transformTxnMain]
        match hc : d.completed with
        | none => exact ⟨_, rfl⟩
        | some CompletedField.empty => exact ⟨_, rfl⟩
        | some (CompletedField.parsed ms) => exact ⟨_, rfl⟩
        | some CompletedField.unparseable => rw [hc] at h; simp at h

theorem mapThrow_ok {α β : Type} (f : α → Except String β) :
    ∀ (l : List α), (∀ a ∈ l, ∃ b, f a = Except.ok b) →
      ∃ ts, mapThrow f l = Except.ok ts ∧ ts.length = l.length ∧
        (∀ (i : Nat) (a : α) (b : β), l[i]? = some a → f a = Except.ok b →
          ts[i]? = some b) := by
  intro l
  induction l with
  | nil =>
    intro _
    exact ⟨[], rfl, rfl, by intro i a b h₁ _; simp at h₁⟩
  | cons a rest ih =>
    intro h
    obtain ⟨b, hb⟩ := h a (by simp)
    obtain ⟨ts, hts, hlen, hidx⟩ := ih (fun x hx => h x (by simp [hx]))
    refine ⟨b :: ts, by simp [mapThrow, hb, hts], by simp [hlen], ?_⟩
    intro i x y hxi hfy
    match i with
    | 0 =>
      simp only [List.getElem?_cons_zero, Option.some_inj] at hxi
      subst hxi
      rw [hb] at hfy
      cases hfy
      simp
    | j + 1 =>
      simp only [List.getElem?_cons_succ] at hxi ⊢
      exact hidx j x y hxi hfy

/-- A concrete account whose balance amount is not numeric. -/
def acctNonNumeric : OBPAccount :=
  { id := some "a1", label := none, bank_id := none, account_type := none,
    balance := some { amount := some "abc", currency := some "USD" },
    account_routings := none, views_available := none }

/-- A concrete account with no balance object at all. -/
def acctNoBalance : OBPAccount :=
  { id := some "a2", label := none, bank_id := none, account_type := none,
    balance := none, account_routings := none, views_available := none }

/-- C6 (counterexample): an account whose balance amount is the non-numeric
string "abc" is transformed to the balance "NaN", not "0.00" — `parseFloat`
returns NaN and `toFixed` formats it as "NaN" without throwing, so the
catch-branch default never applies. -/
theorem balance_nonnumeric_c6_counterexample :
    (transformAccounts (some [acctNonNumeric])).map Account.balance = ["NaN"] ∧
      ("NaN" : String) ≠ "0.00" := by
  constructor
  · rfl
  · decide

/-- C6 (amended): `transformAccounts` never throws; an account with a missing
balance object or missing balance amount is transformed to the balance
"0.00", while an account whose balance amount is a string with no parseable
numeric prefix is transformed to the balance "NaN" (formatted NaN), not
"0.00". -/
theorem transform_balance_degradation_C6 (account : OBPAccount) :
    (transformAccounts (some [account])).map Account.balance =
        [formattedBalanceOf account] ∧
      (account.balance.bind OBPBalance.amount = none →
        formattedBalanceOf account = "0.00") ∧
      (∀ s, account.balance.bind OBPBalance.amount = some s → parseFloat s = JSNum.nan →
        formattedBalanceOf account = "NaN") := by
  refine ⟨rfl, ?_, ?_⟩
  · intro h
    match hb : account.balance with
    | none => simp [formattedBalanceOf, hb]
    | some bal =>
      match ha : bal.amount with
      | none => simp [formattedBalanceOf, hb, ha]
      | some s => simp [hb, ha] at h
  · intro s h hnan
    match hb : account.balance with
    | none => simp [hb] at h
    | some bal =>
      match ha : bal.amount with
      | none => simp [hb, ha] at h
      | some s₂ =>
        simp [hb, ha] at h
        subst h
        simp [formattedBalanceOf, hb, ha, hnan, toFixed2]

theorem transform_balance_degradation_C6_witness :
    formattedBalanceOf acctNoBalance = "0.00" ∧
      formattedBalanceOf acctNonNumeric = "NaN" :=
  ⟨(transform_balance_degradation_C6 acctNoBalance).2.1 rfl,
    (transform_balance_degradation_C6 acctNonNumeric).2.2 "abc" rfl rfl⟩

/-- A concrete transaction element lacking `details`. -/
def txnNoDetails : OBPTransaction :=
  { id := some "t1", details := none, metadata := none, other_account := none }

/-- A concrete well-formed element whose `completed` field is a truthy
unparseable date string (for example "not-a-date"). -/
def txnBadDate : OBPTransaction :=
  { id := some "t9",
    details := some { type := none, description := none,
                      completed := some CompletedField.unparseable,
                      value := some { amount := some "1", currency := none } },
    metadata := none,
    other_account := none }

/-- C10 (counterexample): `transformTransactions` does throw.  For an element
whose `details` and `details.value` are present but whose `completed` is a
truthy string that `new Date` cannot parse, `date.toISOString()` raises a
RangeError outside any try/catch, aborting the map: no list of any length is
returned, refuting both "never throws" and length preservation. -/
theorem transform_throws_c10_counterexample :
    transformTransactions 0 (some [some txnBadDate]) =
        Except.error "RangeError: invalid time value" ∧
      ∀ ts : List Txn, transformTransactions 0 (some [some txnBadDate]) ≠ Except.ok ts := by
  constructor
  · rfl
  · intro ts h
    rw [show transformTransactions 0 (some [some txnBadDate]) =
      Except.error "RangeError: invalid time value" from rfl] at h
    cases h

/-- C10 (amended): for every input list with no element whose `details` and
`details.value` are present but whose `completed` date string is truthy and
unparseable, `transformTransactions` does not throw and returns a list of
exactly the same length, each input element — including malformed elements
lacking `details` or `details.value` — mapping to exactly one output record,
with malformed inputs yielding the "Unknown Transaction" default record
rather than being dropped; an element with such an unparseable date, however,
makes the call throw a RangeError, aborting the whole batch.  A missing
input list yields the empty list. -/
theorem transformTransactions_total_C10 (now : Int) (l : List (Option OBPTransaction))
    (hdates : ∀ t ∈ l, throwsOnDate t = false) :
    (∃ ts : List Txn, transformTransactions now (some l) = Except.ok ts ∧
        ts.length = l.length ∧
        (∀ (i : Nat) (t : Option OBPTransaction), l[i]? = some t → malformedTxn t = true →
          ts[i]? = some (unknownTxn now (txnIdOf t)))) ∧
      transformTransactions now none = Except.ok [] := by
  refine ⟨?_, rfl⟩
  obtain ⟨ts, hts, hlen, hidx⟩ := mapThrow_ok (transformTransaction now) l
    (fun t ht => transformTransaction_ok now t (hdates t ht))
  exact ⟨ts, hts, hlen, fun i t hi hm =>
    hidx i t (unknownTxn now (txnIdOf t)) hi (malformed_transformTransaction now t hm)⟩

/-- The list the demo transformation returns (for a binder-free witness). -/
def demoTransformResult : List Txn :=
  ((transformTransactions 0 (some [none, some txnNoDetails])).toOption).getD []

theorem transformTransactions_total_C10_witness :
    transformTransactions 0 (some [none, some txnNoDetails]) =
        Except.ok demoTransformResult ∧
      demoTransformResult.length = 2 ∧
      demoTransformResult[1]? = some (unknownTxn 0 (some "t1")) := by
  obtain ⟨⟨ts, hts, hlen, hidx⟩, _⟩ :=
    transformTransactions_total_C10 0 [none, some txnNoDetails]
      (by intro t ht; fin_cases ht <;> rfl)
  have hR : demoTransformResult = ts := by
    have h₂ : (Except.ok demoTransformResult : Except String _) = Except.ok ts := by
      rw [← hts]
      exact rfl
    injection h₂
  refine ⟨?_, ?_, ?_⟩
  · rw [hR]; exact hts
  · rw [hR]; simpa using hlen
  · rw [hR]; exact hidx 1 (some txnNoDetails) rfl rfl

end BankCore

namespace BankCore

/-! ## Dynamic JSON values and the accounts response normalization
(src/lib/open-banking-api.ts, `obpApi.getAccounts`, client-side branch) -/

/-- A parsed JSON value as the response-shape checks see it. -/
inductive Json where
  | null : Json
  | bool (b : Bool) : Json
  | num (n : Int) : Json
  | str (s : String) : Json
  | arr (elems : List Json) : Json
  | obj (fields : List (String × Json)) : Json

/-- JS truthiness: objects and arrays (even empty) are truthy; `null`, `false`,
`0` and `""` are falsy. -/
def jsTruthy : Json → Bool
  | Json.null => false
  | Json.bool b => b
  | Json.num n => n ≠ 0
  | Json.str s => s ≠ ""
  | Json.arr _ => true
  | Json.obj _ => true

/-- JS `typeof x === "object"` (true for objects, arrays and `null`). -/
def isObjectType : Json → Bool
  | Json.null => true
  | Json.arr _ => true
  | Json.obj _ => true
  | _ => false

/-- JS `Array.isArray`. -/
def isArrayJson : Json → Bool
  | Json.arr _ => true
  | _ => false

/-- Property access `x[k]` (`none` models `undefined`; arrays carry only index
properties, so named lookup misses). -/
def jsGet : Json → String → Option Json
  | Json.obj fields, k => fields.lookup k
  | _, _ => none

/-- JS `k in x` for the objects this code guards with a typeof check. -/
def hasKey (j : Json) (k : String) : Bool :=
  (jsGet j k).isSome

/-- Whether `x[k]` is an array (`x[k] && Array.isArray(x[k])` and
`'k' in x && Array.isArray(x[k])` agree on this, arrays being truthy). -/
def keyIsArray (j : Json) (k : String) : Bool :=
  match jsGet j k with
  | some (Json.arr _) => true
  | _ => false

/-- The elements of `x[k]` when it is an array, else `[]`. -/
def keyArray (j : Json) (k : String) : List Json :=
  match jsGet j k with
  | some (Json.arr xs) => xs
  | _ => []

/-- The shape normalization of `obpApi.getAccounts` (client-side branch,
src/lib/open-banking-api.ts lines 628-651), applied to the parsed response
body: first the `success`+`data` envelope (returning `data.accounts`, or
`data` itself when it is an array, or `[]`), then a direct truthy-array
`accounts` property, then a bare array, else `[]`. -/
def normalizeAccountsResponse (data : Json) : List Json :=
  if jsTruthy data && isObjectType data && hasKey data "success" && hasKey data "data" then
    let rd := (jsGet data "data").getD Json.null
    if jsTruthy rd && isObjectType rd && hasKey rd "accounts" && keyIsArray rd "accounts" then
      keyArray rd "accounts"
    else
      match rd with
      | Json.arr xs => xs
      | _ => []
  else if jsTruthy data && (match jsGet data "accounts" with
      | some a => jsTruthy a && isArrayJson a
      | none => false) then
    keyArray data "accounts"
  else
    match data with
    | Json.arr xs => xs
    | _ => []

/-- The response shapes the normalization recognizes as carrying a list
(mirror of the branch conditions of `normalizeAccountsResponse`). -/
def recognizedAccountsShape (data : Json) : Bool :=
  if jsTruthy data && isObjectType data && hasKey data "success" && hasKey data "data" then
    let rd := (jsGet data "data").getD Json.null
    (jsTruthy rd && isObjectType rd && hasKey rd "accounts" && keyIsArray rd "accounts")
      || isArrayJson rd
  else
    (jsTruthy data && (match jsGet data "accounts" with
      | some a => jsTruthy a && isArrayJson a
      | none => false))
      || isArrayJson data

end BankCore

namespace BankCore

/-- C2: the three upstream accounts shapes — a bare list, an
`accounts: [...]` object, and a `success`/`data` envelope around an
`accounts: [...]` object — normalize to the same underlying list, and any
shape the normalization does not recognize yields the empty list rather than
an error. -/
theorem accounts_shape_normalization_C2 (xs : List Json) :
    normalizeAccountsResponse (Json.arr xs) = xs ∧
      normalizeAccountsResponse (Json.obj [("accounts", Json.arr xs)]) = xs ∧
      normalizeAccountsResponse (Json.obj [("success", Json.bool true),
        ("data", Json.obj [("accounts", Json.arr xs)])]) = xs ∧
      (∀ d : Json, recognizedAccountsShape d = false → normalizeAccountsResponse d = []) := by
  refine ⟨rfl, rfl, rfl, ?_⟩
  intro d hd
  unfold normalizeAccountsResponse
  unfold recognizedAccountsShape at hd
  by_cases henv : (jsTruthy d && isObjectType d && hasKey d "success" && hasKey d "data") = true
  · simp only [henv, if_true] at hd ⊢
    rcases Bool.or_eq_false_iff.mp hd with ⟨h₁, h₂⟩
    simp only [h₁, if_false]
    match hrd : (jsGet d "data").getD Json.null with
    | Json.arr ys => rw [hrd] at h₂; simp [isArrayJson] at h₂
    | Json.null => rfl
    | Json.bool b => rfl
    | Json.num n => rfl
    | Json.str s => rfl
    | Json.obj fs => rfl
  · rw [if_neg henv] at hd ⊢
    rcases Bool.or_eq_false_iff.mp hd with ⟨h₁, h₂⟩
    rw [if_neg (by simp [h₁])]
    match hd₂ : d with
    | Json.arr ys => simp [isArrayJson] at h₂
    | Json.null => rfl
    | Json.bool b => rfl
    | Json.num n => rfl
    | Json.str s => rfl
    | Json.obj fs => rfl

theorem accounts_shape_normalization_C2_witness :
    normalizeAccountsResponse (Json.arr [Json.num 5]) = [Json.num 5] ∧
      normalizeAccountsResponse (Json.obj [("accounts", Json.arr [Json.num 5])]) = [Json.num 5] ∧
      normalizeAccountsResponse (Json.obj [("success", Json.bool true),
        ("data", Json.obj [("accounts", Json.arr [Json.num 5])])]) = [Json.num 5] ∧
      normalizeAccountsResponse (Json.str "oops") = [] :=
  ⟨(accounts_shape_normalization_C2 [Json.num 5]).1,
    (accounts_shape_normalization_C2 [Json.num 5]).2.1,
    (accounts_shape_normalization_C2 [Json.num 5]).2.2.1,
    (accounts_shape_normalization_C2 [Json.num 5]).2.2.2 (Json.str "oops") rfl⟩

end BankCore

namespace BankCore

/-! ## Active-bank choice in the banks stage (src/hooks/use-banking-data.ts) -/

def DEFAULT_BANK_ID : String := "rbs"

def DEFAULT_VIEW_ID : String := "owner"

/-- A bank element of the fetched list, of which the hook only reads `id`. -/
structure OBPBankR where
  id : Option String
  deriving DecidableEq, Repr

/-- The `selectedBank` React state is created as
`useState(DEFAULT_BANK_ID)` (src/hooks/use-banking-data.ts line 105), so a
sync with no previous selection runs with this value. -/
def initialSelectedBank : String := DEFAULT_BANK_ID

/-- `const bankId = selectedBank || banks[0]?.id || DEFAULT_BANK_ID`
(src/hooks/use-banking-data.ts line 248): the current `selectedBank` state if
truthy, else the first fetched bank id if present and truthy, else "rbs". -/
def chooseBankId (selectedBank : String) (banks : List OBPBankR) : String :=
  if selectedBank ≠ "" then selectedBank
  else jsOr (banks.head?.bind OBPBankR.id) DEFAULT_BANK_ID

/-- C9 (counterexample): with no bank hint and no previously selected bank the
hook runs with the initial `selectedBank` state, which is the default id
"rbs"; for a fetched list whose first bank is "b1" the active bank is "rbs",
not the first bank in the list. -/
theorem choose_bank_c9_counterexample :
    chooseBankId initialSelectedBank [{ id := some "b1" }] = "rbs" ∧
      ("rbs" : String) ≠ "b1" := by
  constructor
  · rfl
  · decide

/-- C9 (amended): when sync runs with no bank hint and no previously selected
bank, the active bank is the initial `selectedBank` state, namely the default
bank id "rbs", regardless of the fetched list; the first bank in the fetched
list would be chosen only if the `selectedBank` state were empty (falling back
to "rbs" when the list is empty or its first id is missing or empty). -/
theorem choose_bank_default_C9 (banks : List OBPBankR) (i : String) (rest : List OBPBankR)
    (h : i ≠ "") :
    chooseBankId initialSelectedBank banks = DEFAULT_BANK_ID ∧
      chooseBankId "" ({ id := some i } :: rest) = i ∧
      chooseBankId "" [] = DEFAULT_BANK_ID := by
  refine ⟨rfl, ?_, rfl⟩
  simp [chooseBankId, jsOr, h]

theorem choose_bank_default_C9_witness :
    chooseBankId initialSelectedBank [{ id := some "b1" }, { id := some "b2" }] =
        DEFAULT_BANK_ID ∧
      chooseBankId "" ({ id := some "b1" } :: [{ id := some "b2" }]) = "b1" ∧
      chooseBankId "" [] = DEFAULT_BANK_ID :=
  choose_bank_default_C9 [{ id := some "b1" }, { id := some "b2" }] "b1"
    [{ id := some "b2" }] (by decide)

end BankCore

namespace BankCore

/-! ## Transactions stage of the Data-Sync Orchestrator
(src/hooks/use-banking-data.ts lines 361-429)

The per-account fetch becomes an oracle `fetchTx` returning the parsed
response or a thrown error; it runs through the Resource Cache exactly as the
source does (`getCachedOrFetch` with the `transactions-bank-account-view`
key).  Progress events carry the payload of `emitLoginProgress`. -/

/-- A transactions response as the hook's normalization sees it: a bare array,
an object whose truthy `transactions` property is an array, or any other
shape.  For the third case the hook's `?.transactions || []` (and, for a
truthy non-array `transactions` value, the array guard inside
`transformTransactions`) produces the empty list. -/
inductive TxData where
  | arr (txs : List (Option OBPTransaction)) : TxData
  | objWithTx (txs : List (Option OBPTransaction)) : TxData
  | other : TxData

/-- Lines 399-401: `Array.isArray(transactionsData) ? transactionsData :
transactionsData?.transactions || []`. -/
def normalizeTxData : TxData → List (Option OBPTransaction)
  | TxData.arr txs => txs
  | TxData.objWithTx txs => txs
  | TxData.other => []

/-- The predicate of the view lookup at line 387: `v.id.includes("owner")`
with no optional chaining.  `find` tests elements in order and stops at the
first match, so reaching a view that lacks an id throws a TypeError — and
this expression sits outside the per-account try block, so the throw aborts
the whole sync. -/
def viewsFindOwner : List OBPView → Except String (Option OBPView)
  | [] => Except.ok none
  | v :: rest =>
    match v.id with
    | none => Except.error "TypeError: v.id is undefined"
    | some i => if strContains i "owner" then Except.ok (some v) else viewsFindOwner rest

/-- View derivation of lines 385-388 (before the per-account try block): when
`views_available` is an array, the first view whose id contains "owner"
(`?.id || DEFAULT_VIEW_ID`), else the "owner" default; reaching a view with
no id throws. -/
def loopViewIdE (account : OBPAccount) : Except String String :=
  match account.views_available with
  | none => Except.ok DEFAULT_VIEW_ID
  | some vs =>
    match viewsFindOwner vs with
    | Except.error e => Except.error e
    | Except.ok none => Except.ok DEFAULT_VIEW_ID
    | Except.ok (some v) => Except.ok (jsOr v.id DEFAULT_VIEW_ID)

/-- Cache key of line 392 (template-string interpolation). -/
def txKey (bankId : String) (account : OBPAccount) (viewId : String) : String :=
  "transactions-" ++ bankId ++ "-" ++ optStr account.id ++ "-" ++ viewId

/-- Payload of one `emitLoginProgress(type, stage, accountsTotal,
currentAccount)` broadcast. -/
structure ProgressEvent where
  type : String
  stage : String
  accountsTotal : Option Nat
  currentAccount : Option Nat
  deriving DecidableEq, Repr

/-- The event emitted after each account of the transactions loop. -/
def progressEvent (total cnt : Nat) : ProgressEvent :=
  { type := "transactions", stage := "progress",
    accountsTotal := some total, currentAccount := some cnt }

/-- The loop-local mutable state: the aggregate list, the processed counter,
the emitted events and the shared Resource Cache. -/
structure TxLoopState where
  allTransactions : List Txn
  processedCount : Nat
  events : List ProgressEvent
  cache : Cache TxData

/-- One iteration of the `for (const account of obpAccounts)` loop
(lines 384-415).  The view-id derivation runs before the try block, so its
TypeError aborts the whole loop (`Except.error`).  Inside the try, the fetch
runs through the cache; a fetch error is caught and contributes nothing.
The transform (line 403) also runs inside the try and after the fetch result
has been cached, so a transform throw (an unparseable date) is likewise
caught per-account, with the cache keeping the fetched data.  In every
caught case the counter is incremented and a progress event emitted. -/
def txLoopStep (now : Int) (bankId : String) (total : Nat)
    (fetchTx : OBPAccount → Except String TxData)
    (st : TxLoopState) (account : OBPAccount) : Except String TxLoopState :=
  match loopViewIdE account with
  | Except.error e => Except.error e
  | Except.ok viewId =>
    match getCachedOrFetch now (txKey bankId account viewId) (fetchTx account) st.cache with
    | Except.ok (txData, cache₂, _) =>
      match transformTransactions now (some (normalizeTxData txData)) with
      | Except.ok transformed =>
        Except.ok
          { allTransactions := st.allTransactions ++ transformed,
            processedCount := st.processedCount + 1,
            events := st.events ++ [progressEvent total (st.processedCount + 1)],
            cache := cache₂ }
      | Except.error _ =>
        Except.ok
          { allTransactions := st.allTransactions,
            processedCount := st.processedCount + 1,
            events := st.events ++ [progressEvent total (st.processedCount + 1)],
            cache := cache₂ }
    | Except.error _ =>
      Except.ok
        { allTransactions := st.allTransactions,
          processedCount := st.processedCount + 1,
          events := st.events ++ [progressEvent total (st.processedCount + 1)],
          cache := st.cache }

/-- The loop as a fail-fast fold: an uncaught throw in one iteration aborts
the remaining iterations, as in the JS for-loop. -/
def txLoopFold (now : Int) (bankId : String) (total : Nat)
    (fetchTx : OBPAccount → Except String TxData) :
    List OBPAccount → TxLoopState → Except String TxLoopState
  | [], st => Except.ok st
  | a :: rest, st =>
    match txLoopStep now bankId total fetchTx st a with
    | Except.error e => Except.error e
    | Except.ok st₂ => txLoopFold now bankId total fetchTx rest st₂

/-- The whole transactions loop, started with an empty aggregate and counter
and the ambient cache. -/
def txLoop (now : Int) (bankId : String) (fetchTx : OBPAccount → Except String TxData)
    (accounts : List OBPAccount) (cache₀ : Cache TxData) : Except String TxLoopState :=
  txLoopFold now bankId accounts.length fetchTx accounts
    { allTransactions := [], processedCount := 0, events := [], cache := cache₀ }

/-- JS sort comparator of line 428, `(a, b) => b.date - a.date` on the parsed
dates: `a` stays before `b` when `b.date ≤ a.date`. -/
def txnLe (a b : Txn) : Bool := decide (b.date ≤ a.date)

/-- `allTransactions.sort(...)` of line 428 (a stable sort, as in JS). -/
def sortTransactions (l : List Txn) : List Txn := l.mergeSort txnLe

/-- What one account contributes to the aggregate when its fetch is fresh:
its transformed transactions when the fetch and the transform both succeed,
nothing when either throws (both run inside the per-account try). -/
def txContribution (now : Int) (fetchTx : OBPAccount → Except String TxData)
    (a : OBPAccount) : List Txn :=
  match fetchTx a with
  | Except.ok d =>
    match transformTransactions now (some (normalizeTxData d)) with
    | Except.ok ts => ts
    | Except.error _ => []
  | Except.error _ => []

/-- The progress events the loop emits: one per account, counts ascending
from `startCount + 1`. -/
def progressEvents (total startCount : Nat) : Nat → List ProgressEvent
  | 0 => []
  | n + 1 => progressEvent total (startCount + 1) :: progressEvents total (startCount + 1) n

/-- The tail of `fetchData` from the accounts transform through the sorted
transaction aggregate: the display accounts (set before the loop), the
sorted transactions and the final loop state; an uncaught view-id TypeError
propagates to the outer catch and nothing is returned. -/
def syncTail (now : Int) (bankId : String) (fetchTx : OBPAccount → Except String TxData)
    (obpAccounts : List OBPAccount) (cache₀ : Cache TxData) :
    Except String (List Account × List Txn × TxLoopState) :=
  match txLoop now bankId fetchTx obpAccounts cache₀ with
  | Except.error e => Except.error e
  | Except.ok final =>
    Except.ok (transformAccounts (some obpAccounts),
      sortTransactions final.allTransactions, final)

theorem progressEvents_getElem (total : Nat) :
    ∀ (n startCount i : Nat), i < n →
      (progressEvents total startCount n)[i]? =
        some (progressEvent total (startCount + i + 1)) := by
  intro n
  induction n with
  | zero => intro s i h; omega
  | succ m ih =>
    intro s i h
    match i with
    | 0 => simp [progressEvents]
    | j + 1 =>
      have hj := ih (s + 1) j (by omega)
      have harith : s + 1 + j + 1 = s + (j + 1) + 1 := by omega
      simp only [progressEvents, List.getElem?_cons_succ, hj, harith]

theorem txLoopFold_spec (now : Int) (bankId : String) (total : Nat)
    (fetchTx : OBPAccount → Except String TxData) (vids : OBPAccount → String) :
    ∀ (accounts : List OBPAccount) (st : TxLoopState),
      (∀ a ∈ accounts, loopViewIdE a = Except.ok (vids a)) →
      (∀ a ∈ accounts, cacheLookup st.cache (txKey bankId a (vids a)) = none) →
      ((accounts.map (fun a => txKey bankId a (vids a))).Nodup) →
      ∃ final, txLoopFold now bankId total fetchTx accounts st = Except.ok final ∧
        final.allTransactions =
          st.allTransactions ++ accounts.flatMap (txContribution now fetchTx) ∧
        final.processedCount = st.processedCount + accounts.length ∧
        final.events = st.events ++ progressEvents total st.processedCount accounts.length := by
  intro accounts
  induction accounts with
  | nil =>
    intro st _ _ _
    exact ⟨st, rfl, by simp, by simp, by simp [progressEvents]⟩
  | cons a rest ih =>
    intro st hview hfresh hnd
    have hsplit : (∀ x ∈ rest, ¬txKey bankId x (vids x) = txKey bankId a (vids a)) ∧
        (rest.map (fun x => txKey bankId x (vids x))).Nodup := by simpa using hnd
    have hva : loopViewIdE a = Except.ok (vids a) := hview a (by simp)
    have hka : cacheLookup st.cache (txKey bankId a (vids a)) = none := hfresh a (by simp)
    cases hfa : fetchTx a with
    | error e =>
      have hstep : txLoopStep now bankId total fetchTx st a = Except.ok
          { allTransactions := st.allTransactions,
            processedCount := st.processedCount + 1,
            events := st.events ++ [progressEvent total (st.processedCount + 1)],
            cache := st.cache } := by
        simp [txLoopStep, getCachedOrFetch, hva, hka, hfa, Except.map]
      obtain ⟨final, hfold, h₁, h₂, h₃⟩ := ih
        { allTransactions := st.allTransactions,
          processedCount := st.processedCount + 1,
          events := st.events ++ [progressEvent total (st.processedCount + 1)],
          cache := st.cache }
        (fun b hb => hview b (by simp [hb]))
        (fun b hb => hfresh b (by simp [hb]))
        hsplit.2
      refine ⟨final, ?_, ?_, ?_, ?_⟩
      · rw [txLoopFold, hstep]; exact hfold
      · rw [h₁]; simp [txContribution, hfa, List.flatMap_cons]
      · rw [h₂]; simp; omega
      · rw [h₃]; simp [progressEvents, List.append_assoc]
    | ok d =>
      cases htr : transformTransactions now (some (normalizeTxData d)) with
      | ok ts =>
        have hstep : txLoopStep now bankId total fetchTx st a = Except.ok
            { allTransactions := st.allTransactions ++ ts,
              processedCount := st.processedCount + 1,
              events := st.events ++ [progressEvent total (st.processedCount + 1)],
              cache := cacheInsert st.cache (txKey bankId a (vids a)) now d } := by
          simp [txLoopStep, getCachedOrFetch, hva, hka, hfa, htr, Except.map]
        obtain ⟨final, hfold, h₁, h₂, h₃⟩ := ih
          { allTransactions := st.allTransactions ++ ts,
            processedCount := st.processedCount + 1,
            events := st.events ++ [progressEvent total (st.processedCount + 1)],
            cache := cacheInsert st.cache (txKey bankId a (vids a)) now d }
          (fun b hb => hview b (by simp [hb]))
          (by
            intro b hb
            exact (cacheLookup_insert_ne st.cache (txKey bankId a (vids a))
              (txKey bankId b (vids b)) now d
              (fun hcontra => hsplit.1 b hb hcontra.symm)).trans
              (hfresh b (by simp [hb])))
          hsplit.2
        refine ⟨final, ?_, ?_, ?_, ?_⟩
        · rw [txLoopFold, hstep]; exact hfold
        · rw [h₁]; simp [txContribution, hfa, htr, List.flatMap_cons, List.append_assoc]
        · rw [h₂]; simp; omega
        · rw [h₃]; simp [progressEvents, List.append_assoc]
      | error er =>
        have hstep : txLoopStep now bankId total fetchTx st a = Except.ok
            { allTransactions := st.allTransactions,
              processedCount := st.processedCount + 1,
              events := st.events ++ [progressEvent total (st.processedCount + 1)],
              cache := cacheInsert st.cache (txKey bankId a (vids a)) now d } := by
          simp [txLoopStep, getCachedOrFetch, hva, hka, hfa, htr, Except.map]
        obtain ⟨final, hfold, h₁, h₂, h₃⟩ := ih
          { allTransactions := st.allTransactions,
            processedCount := st.processedCount + 1,
            events := st.events ++ [progressEvent total (st.processedCount + 1)],
            cache := cacheInsert st.cache (txKey bankId a (vids a)) now d }
          (fun b hb => hview b (by simp [hb]))
          (by
            intro b hb
            exact (cacheLookup_insert_ne st.cache (txKey bankId a (vids a))
              (txKey bankId b (vids b)) now d
              (fun hcontra => hsplit.1 b hb hcontra.symm)).trans
              (hfresh b (by simp [hb])))
          hsplit.2
        refine ⟨final, ?_, ?_, ?_, ?_⟩
        · rw [txLoopFold, hstep]; exact hfold
        · rw [h₁]; simp [txContribution, hfa, htr, List.flatMap_cons]
        · rw [h₂]; simp; omega
        · rw [h₃]; simp [progressEvents, List.append_assoc]

end BankCore

namespace BankCore

/-- C4: over any account list whose views are well formed (the view-id
derivation, which runs outside the per-account try and would otherwise abort
the whole sync, succeeds for every account) and whose per-account cache keys
are distinct and not already cached, every per-account fetch failure is
caught and contributes an empty result: the sync returns, its aggregate
contains exactly the transformed transactions of the accounts whose fetch
and transform succeeded, the display account list (produced before the loop
and untouched by it) keeps its length, the processed counter reaches the
account count, and a progress event with the incremented completed count is
emitted after every account, successful or not. -/
theorem orchestrator_partial_failure_C4 (now : Int) (bankId : String)
    (fetchTx : OBPAccount → Except String TxData) (obpAccounts : List OBPAccount)
    (cache₀ : Cache TxData) (vids : OBPAccount → String)
    (hview : ∀ a ∈ obpAccounts, loopViewIdE a = Except.ok (vids a))
    (hfresh : ∀ a ∈ obpAccounts, cacheLookup cache₀ (txKey bankId a (vids a)) = none)
    (hnd : ((obpAccounts.map (fun a => txKey bankId a (vids a))).Nodup)) :
    ∃ accs sorted final,
      syncTail now bankId fetchTx obpAccounts cache₀ = Except.ok (accs, sorted, final) ∧
        accs.length = obpAccounts.length ∧
        final.allTransactions = obpAccounts.flatMap (txContribution now fetchTx) ∧
        final.processedCount = obpAccounts.length ∧
        final.events = progressEvents obpAccounts.length 0 obpAccounts.length ∧
        (∀ i : Nat, i < obpAccounts.length →
          final.events[i]? = some (progressEvent obpAccounts.length (i + 1))) := by
  obtain ⟨final, hfold, h₁, h₂, h₃⟩ := txLoopFold_spec now bankId obpAccounts.length fetchTx
    vids obpAccounts
    { allTransactions := [], processedCount := 0, events := [], cache := cache₀ }
    hview hfresh hnd
  refine ⟨transformAccounts (some obpAccounts), sortTransactions final.allTransactions,
    final, ?_, ?_, ?_, ?_, ?_, ?_⟩
  · simp [syncTail, txLoop, hfold]
  · simp [transformAccounts]
  · simpa using h₁
  · simpa using h₂
  · simpa using h₃
  · intro i hi
    rw [show final.events = progressEvents obpAccounts.length 0 obpAccounts.length from
      by simpa using h₃]
    simpa using progressEvents_getElem obpAccounts.length obpAccounts.length 0 i hi

/-- A fetch oracle that throws for the first demo account and returns an
unrecognized-shape response for the second. -/
def demoFailFetch : OBPAccount → Except String TxData :=
  fun a => if a.id == some "a1" then Except.error "boom" else Except.ok TxData.other

/-- The value the demo sync returns (extracted for a binder-free witness). -/
def demoFailResult : List Account × List Txn × TxLoopState :=
  ((syncTail 0 "rbs" demoFailFetch [acctNonNumeric, acctNoBalance] []).toOption).getD
    ([], [], { allTransactions := [], processedCount := 0, events := [], cache := [] })

theorem orchestrator_partial_failure_C4_witness :
    syncTail 0 "rbs" demoFailFetch [acctNonNumeric, acctNoBalance] [] =
        Except.ok demoFailResult ∧
      demoFailResult.1.length = 2 ∧
      demoFailResult.2.2.processedCount = 2 ∧
      demoFailResult.2.2.events[1]? = some (progressEvent 2 2) := by
  obtain ⟨accs, sorted, final, heq, hlen, htx, hcount, hev, hidx⟩ :=
    orchestrator_partial_failure_C4 0 "rbs" demoFailFetch [acctNonNumeric, acctNoBalance] []
      (fun _ => DEFAULT_VIEW_ID)
      (by intro a ha; fin_cases ha <;> rfl)
      (by intro a ha; rfl)
      (by decide)
  have hR : demoFailResult = (accs, sorted, final) := by
    have h₂ : (Except.ok demoFailResult : Except String _) = Except.ok (accs, sorted, final) := by
      rw [← heq]
      exact rfl
    injection h₂
  refine ⟨?_, ?_, ?_, ?_⟩
  · rw [hR]; exact heq
  · rw [hR]; simpa using hlen
  · rw [hR]; simpa using hcount
  · rw [hR]; simpa using hidx 1 (by simp)

theorem txnLe_trans : ∀ (a b c : Txn), txnLe a b → txnLe b c → txnLe a c := by
  intro a b c hab hbc
  simp only [txnLe, decide_eq_true_eq] at *
  omega

theorem txnLe_total : ∀ (a b : Txn), txnLe a b || txnLe b a := by
  intro a b
  simp only [txnLe]
  by_cases h : b.date ≤ a.date
  · simp [h]
  · simp [h]; omega

theorem sortTransactions_sorted (l : List Txn) :
    (sortTransactions l).Pairwise (fun a b => b.date ≤ a.date) :=
  (List.sorted_mergeSort txnLe_trans txnLe_total l).imp
    (by intro a b hb; simpa [txnLe] using hb)

theorem sortTransactions_perm (l : List Txn) : (sortTransactions l).Perm l :=
  List.mergeSort_perm l txnLe

theorem pairwise_and_of_pairwise {α : Type} {R S : α → α → Prop} :
    ∀ {l : List α}, l.Pairwise R → l.Pairwise S → l.Pairwise (fun a b => R a b ∧ S a b) := by
  intro l
  induction l with
  | nil => intro _ _; exact List.Pairwise.nil
  | cons x xs ih =>
    intro hR hS
    rcases List.pairwise_cons.mp hR with ⟨hRx, hRxs⟩
    rcases List.pairwise_cons.mp hS with ⟨hSx, hSxs⟩
    exact List.pairwise_cons.mpr ⟨fun b hb => ⟨hRx b hb, hSx b hb⟩, ih hRxs hSxs⟩

theorem sortTransactions_strict (l : List Txn) (h : (l.map Txn.date).Nodup) :
    (sortTransactions l).Pairwise (fun a b => b.date < a.date) := by
  have hperm : ((sortTransactions l).map Txn.date).Perm (l.map Txn.date) :=
    (sortTransactions_perm l).map Txn.date
  have hnd : ((sortTransactions l).map Txn.date).Nodup := (hperm.symm).nodup h
  have hne : (sortTransactions l).Pairwise (fun a b => a.date ≠ b.date) :=
    List.pairwise_map.mp hnd
  exact (pairwise_and_of_pairwise (sortTransactions_sorted l) hne).imp
    (fun hab => lt_of_le_of_ne hab.1 (Ne.symm hab.2))

/-- C5: whenever the sync returns (the list the claim speaks about exists),
the transaction list it returns is the sorted aggregate: a permutation of
the per-account aggregate, pairwise descending by date, and strictly
descending whenever the aggregated dates are distinct — independent of the
order in which the per-account results arrived. -/
theorem sync_sort_invariant_C5 (now : Int) (bankId : String)
    (fetchTx : OBPAccount → Except String TxData) (obpAccounts : List OBPAccount)
    (cache₀ : Cache TxData) :
    ∀ (accs : List Account) (sorted : List Txn) (final : TxLoopState),
      syncTail now bankId fetchTx obpAccounts cache₀ = Except.ok (accs, sorted, final) →
      sorted.Pairwise (fun a b => b.date ≤ a.date) ∧
        sorted.Perm final.allTransactions ∧
        ((final.allTransactions.map Txn.date).Nodup →
          sorted.Pairwise (fun a b => b.date < a.date)) := by
  intro accs sorted final heq
  cases htl : txLoop now bankId fetchTx obpAccounts cache₀ with
  | error e => simp [syncTail, htl] at heq
  | ok f =>
    simp only [syncTail, htl, Except.ok.injEq, Prod.mk.injEq] at heq
    obtain ⟨-, hs, hf⟩ := heq
    subst hs
    subst hf
    exact ⟨sortTransactions_sorted _, sortTransactions_perm _,
      fun hnd => sortTransactions_strict _ hnd⟩

end BankCore

namespace BankCore

/-- A concrete well-formed transaction completed at time `ts`. -/
def txnAt (tid : String) (ts : Int) : OBPTransaction :=
  { id := some tid,
    details := some { type := none, description := none,
                      completed := some (CompletedField.parsed ts),
                      value := some { amount := some "5", currency := none } },
    metadata := none,
    other_account := none }

/-- A fetch oracle returning two transactions with distinct dates. -/
def demoSortFetch : OBPAccount → Except String TxData :=
  fun _ => Except.ok (TxData.arr [some (txnAt "x1" 100), some (txnAt "x2" 200)])

/-- The value the demo sort sync returns (for a binder-free witness). -/
def demoSortResult : List Account × List Txn × TxLoopState :=
  ((syncTail 0 "rbs" demoSortFetch [acctNoBalance] []).toOption).getD
    ([], [], { allTransactions := [], processedCount := 0, events := [], cache := [] })

theorem sync_sort_invariant_C5_witness :
    syncTail 0 "rbs" demoSortFetch [acctNoBalance] [] = Except.ok demoSortResult ∧
      demoSortResult.2.1.Pairwise (fun a b => b.date < a.date) := by
  have heq : syncTail 0 "rbs" demoSortFetch [acctNoBalance] [] =
      Except.ok demoSortResult := rfl
  refine ⟨heq, ?_⟩
  exact (sync_sort_invariant_C5 0 "rbs" demoSortFetch [acctNoBalance] []
    demoSortResult.1 demoSortResult.2.1 demoSortResult.2.2 (by rw [heq])).2.2 (by decide)

end BankCore

namespace BankCore

/-! ## Authenticated Request Gateway
(src/lib/banking/direct-login-client.ts, `request`, lines 249-398)

The browser-side client is modelled with its token, the client-visible cookie
and the localStorage flag; the network is an environment of response streams:
`targetStatus i` is the HTTP status of the i-th outbound call to the target
endpoint, `probeOk i` the overall outcome of the i-th
`verifyTokenWithTestRequest` (which internally tries the test-connection
endpoint and then the banks endpoint as a backup — collapsed to its boolean
outcome, since neither probe touches the target endpoint), and `refreshOk i`
the outcome of the i-th last-resort refresh probe. -/

/-- The placeholder stored when trust is delegated to the http-only cookie. -/
def sentinelToken : String := "verified-via-http-only"

structure GatewayEnv where
  targetStatus : Nat → Nat
  probeOk : Nat → Bool
  refreshOk : Nat → Bool

structure GatewayState where
  token : Option String
  cookieToken : Option String
  localAuth : Bool
  targetCalls : Nat
  probeCalls : Nat
  refreshCalls : Nat
  deriving Repr

/-- `verifyTokenWithTestRequest` (lines 82-144): on a successful probe adopt
the sentinel token and set the localStorage flag; report the outcome. -/
def verifyTokenWithTestRequest (env : GatewayEnv) (st : GatewayState) : Bool × GatewayState :=
  if env.probeOk st.probeCalls then
    (true, { st with probeCalls := st.probeCalls + 1,
                     token := some sentinelToken, localAuth := true })
  else
    (false, { st with probeCalls := st.probeCalls + 1 })

/-- `initializeFromCookie` (lines 35-79): keep an existing truthy token, else
adopt the client-visible cookie, else probe. -/
def initializeFromCookie (env : GatewayEnv) (st : GatewayState) : GatewayState :=
  if optTruthy st.token then st
  else if optTruthy st.cookieToken then { st with token := st.cookieToken }
  else (verifyTokenWithTestRequest env st).2

/-- The token initialization at the top of `executeRequest` (lines 258-265):
with no truthy token, initialize from the cookie and, still lacking one,
probe once more. -/
def preInit (env : GatewayEnv) (st : GatewayState) : GatewayState :=
  if optTruthy st.token then st
  else
    let stA := initializeFromCookie env st
    if optTruthy stA.token then stA else (verifyTokenWithTestRequest env stA).2

/-- `response.ok` of the fetch API. -/
def isOkStatus (s : Nat) : Bool := 200 ≤ s && s < 300

def maxRetries : Nat := 1

inductive ReqOutcome where
  | ok : ReqOutcome
  | authError : ReqOutcome
  | requestError (status : Nat) : ReqOutcome
  deriving DecidableEq, Repr

/-- One pass of the `executeRequest` body (lines 255-395): initialize the
token, make the one outbound call to the target endpoint, and on a 401 clear
all credential state, probe, fall back to the last-resort refresh, and either
signal a retry (`Sum.inr` with the recovered state, only when
`retryCount < maxRetries`) or finish with an outcome. -/
def runAttempt (env : GatewayEnv) (retryCount : Nat) (st₀ : GatewayState) :
    (ReqOutcome × GatewayState) ⊕ GatewayState :=
  let st₁ := preInit env st₀
  let status := env.targetStatus st₁.targetCalls
  let st₂ := { st₁ with targetCalls := st₁.targetCalls + 1 }
  if isOkStatus status then Sum.inl (ReqOutcome.ok, st₂)
  else if status = 401 then
    let st₃ := { st₂ with token := none, cookieToken := none, localAuth := false }
    match verifyTokenWithTestRequest env st₃ with
    | (true, st₄) =>
      if retryCount < maxRetries then Sum.inr st₄
      else Sum.inl (ReqOutcome.authError, st₄)
    | (false, st₄) =>
      let refOk := env.refreshOk st₄.refreshCalls
      let st₅ := { st₄ with refreshCalls := st₄.refreshCalls + 1 }
      if refOk then
        let st₆ := { st₅ with token := some sentinelToken }
        if retryCount < maxRetries then Sum.inr st₆
        else Sum.inl (ReqOutcome.authError, st₆)
      else Sum.inl (ReqOutcome.authError, st₅)
  else Sum.inl (ReqOutcome.requestError status, st₂)

/-- The retry recursion of `request`: each `return executeRequest()` re-runs
the body with the incremented shared `retryCount`; the fuel argument is the
remaining number of body runs (`maxRetries + 1` at the start), and the
`retryCount < maxRetries` guard inside `runAttempt` is what actually stops
the recursion. -/
def executeRequest (env : GatewayEnv) : Nat → Nat → GatewayState → ReqOutcome × GatewayState
  | 0, _, st => (ReqOutcome.authError, st)
  | fuel + 1, retryCount, st₀ =>
    match runAttempt env retryCount st₀ with
    | Sum.inl result => result
    | Sum.inr stRetry => executeRequest env fuel (retryCount + 1) stRetry

/-- `request` (line 249): run the body with `retryCount = 0` and call
counters zeroed. -/
def bankingRequest (env : GatewayEnv) (token cookieToken : Option String)
    (localAuth : Bool) : ReqOutcome × GatewayState :=
  executeRequest env (maxRetries + 1) 0
    { token := token, cookieToken := cookieToken, localAuth := localAuth,
      targetCalls := 0, probeCalls := 0, refreshCalls := 0 }

theorem vst_targetCalls (env : GatewayEnv) (st : GatewayState) :
    ((verifyTokenWithTestRequest env st).2).targetCalls = st.targetCalls := by
  by_cases h : env.probeOk st.probeCalls <;> simp [verifyTokenWithTestRequest, h]

theorem initializeFromCookie_targetCalls (env : GatewayEnv) (st : GatewayState) :
    (initializeFromCookie env st).targetCalls = st.targetCalls := by
  by_cases h₁ : optTruthy st.token
  · simp [initializeFromCookie, h₁]
  · by_cases h₂ : optTruthy st.cookieToken <;>
      simp [initializeFromCookie, h₁, h₂, vst_targetCalls]

theorem preInit_targetCalls (env : GatewayEnv) (st : GatewayState) :
    (preInit env st).targetCalls = st.targetCalls := by
  by_cases h₁ : optTruthy st.token
  · simp [preInit, h₁]
  · by_cases h₂ : optTruthy (initializeFromCookie env st).token <;>
      simp [preInit, h₁, h₂, vst_targetCalls, initializeFromCookie_targetCalls]

theorem runAttempt_targetCalls (env : GatewayEnv) (retryCount : Nat) (st₀ : GatewayState) :
    (runAttempt env retryCount st₀).elim (fun p => p.2.targetCalls)
      (fun s => s.targetCalls) = st₀.targetCalls + 1 := by
  have hpre := preInit_targetCalls env st₀
  simp only [runAttempt]
  split
  · simp [hpre]
  · split
    · split
      · rename_i st₄ heq
        have hvt := vst_targetCalls env
          { token := none, cookieToken := none, localAuth := false,
            targetCalls := (preInit env st₀).targetCalls + 1,
            probeCalls := (preInit env st₀).probeCalls,
            refreshCalls := (preInit env st₀).refreshCalls }
        rw [heq] at hvt
        split
        · simpa [hpre] using hvt
        · simpa [hpre] using hvt
      · rename_i st₄ heq
        have hvt := vst_targetCalls env
          { token := none, cookieToken := none, localAuth := false,
            targetCalls := (preInit env st₀).targetCalls + 1,
            probeCalls := (preInit env st₀).probeCalls,
            refreshCalls := (preInit env st₀).refreshCalls }
        rw [heq] at hvt
        split
        · split
          · simpa [hpre] using hvt
          · simpa [hpre] using hvt
        · simpa [hpre] using hvt
    · simp [hpre]

theorem executeRequest_targetCalls_le (env : GatewayEnv) :
    ∀ (fuel retryCount : Nat) (st : GatewayState),
      ((executeRequest env fuel retryCount st).2).targetCalls ≤ st.targetCalls + fuel := by
  intro fuel
  induction fuel with
  | zero => intro rc st; simp [executeRequest]
  | succ n ih =>
    intro rc st
    have hTA := runAttempt_targetCalls env rc st
    unfold executeRequest
    rcases hr : runAttempt env rc st with result | stRetry
    · obtain ⟨r, st₂⟩ := result
      rw [hr] at hTA
      simp only [Sum.elim_inl] at hTA
      simp [hTA]
    · rw [hr] at hTA
      simp only [Sum.elim_inr] at hTA
      calc ((executeRequest env n (rc + 1) stRetry).2).targetCalls
          ≤ stRetry.targetCalls + n := ih (rc + 1) stRetry
        _ = st.targetCalls + 1 + n := by rw [hTA]
        _ ≤ st.targetCalls + (n + 1) := by omega

end BankCore

namespace BankCore

theorem runAttempt_401_recovers (env : GatewayEnv) (rc : Nat) (st₀ : GatewayState)
    (h401 : env.targetStatus st₀.targetCalls = 401) (hp : ∀ i, env.probeOk i = true)
    (hrc : rc < maxRetries) :
    runAttempt env rc st₀ = Sum.inr
      { token := some sentinelToken, cookieToken := none, localAuth := true,
        targetCalls := st₀.targetCalls + 1,
        probeCalls := (preInit env st₀).probeCalls + 1,
        refreshCalls := (preInit env st₀).refreshCalls } := by
  have hpre := preInit_targetCalls env st₀
  simp [runAttempt, verifyTokenWithTestRequest, hpre, h401, hp, hrc, isOkStatus]

theorem runAttempt_401_exhausted (env : GatewayEnv) (st₀ : GatewayState)
    (h401 : env.targetStatus st₀.targetCalls = 401) (hp : ∀ i, env.probeOk i = true)
    (htok : optTruthy st₀.token = true) :
    runAttempt env 1 st₀ = Sum.inl (ReqOutcome.authError,
      { token := some sentinelToken, cookieToken := none, localAuth := true,
        targetCalls := st₀.targetCalls + 1,
        probeCalls := st₀.probeCalls + 1,
        refreshCalls := st₀.refreshCalls }) := by
  simp [runAttempt, preInit, verifyTokenWithTestRequest, htok, h401, hp, isOkStatus, maxRetries]

end BankCore

namespace BankCore

/-- C1: for the Authenticated Request Gateway of the banking client, a request
whose original attempt receives HTTP 401 and whose recovery probes succeed is
retried exactly once: with 401 on both the original and the retried attempt
the gateway makes exactly two outbound calls to the target endpoint and fails
with an authentication error; and for every environment and initial client
state whatsoever, the number of outbound calls to the target endpoint never
exceeds two. -/
theorem gateway_retry_bound_C1 (env : GatewayEnv) (tok ck : Option String) (la : Bool)
    (h₀ : env.targetStatus 0 = 401) (h₁ : env.targetStatus 1 = 401)
    (hp : ∀ i, env.probeOk i = true) :
    ((bankingRequest env tok ck la).2.targetCalls = 2 ∧
      (bankingRequest env tok ck la).1 = ReqOutcome.authError) ∧
    ∀ (env₂ : GatewayEnv) (t₂ c₂ : Option String) (l₂ : Bool),
      (bankingRequest env₂ t₂ c₂ l₂).2.targetCalls ≤ 2 := by
  constructor
  · have hstep₁ := runAttempt_401_recovers env 0
      ⟨tok, ck, la, 0, 0, 0⟩ h₀ hp (by decide)
    have hstep₂ := runAttempt_401_exhausted env
      ⟨some sentinelToken, none, true,
        (⟨tok, ck, la, 0, 0, 0⟩ : GatewayState).targetCalls + 1,
        (preInit env ⟨tok, ck, la, 0, 0, 0⟩).probeCalls + 1,
        (preInit env ⟨tok, ck, la, 0, 0, 0⟩).refreshCalls⟩
      h₁ hp (by simp [optTruthy, sentinelToken])
    constructor
    · simp [bankingRequest, executeRequest, maxRetries, hstep₁, hstep₂]
    · simp [bankingRequest, executeRequest, maxRetries, hstep₁, hstep₂]
  · intro env₂ t₂ c₂ l₂
    have := executeRequest_targetCalls_le env₂ (maxRetries + 1) 0
      ⟨t₂, c₂, l₂, 0, 0, 0⟩
    simpa [bankingRequest, maxRetries] using this

end BankCore

namespace BankCore

/-- An environment in which the target endpoint always answers 401 and every
probe succeeds. -/
def envAll401 : GatewayEnv :=
  { targetStatus := fun _ => 401, probeOk := fun _ => true, refreshOk := fun _ => false }

theorem gateway_retry_bound_C1_witness :
    (bankingRequest envAll401 none none false).2.targetCalls = 2 ∧
      (bankingRequest envAll401 none none false).1 = ReqOutcome.authError :=
  (gateway_retry_bound_C1 envAll401 none none false rfl rfl (fun _ => rfl)).1

end BankCore

namespace BankCore

/-! ## Session Lifecycle Controller
(src/hooks/use-banking-data.ts: `logout` lines 742-816 and the
`checkAuthentication` effect lines 465-664)

The localStorage `logged_out` flag, the React state the hook clears on
logout, and the shared client and cache become one record; the
test-connection and banks endpoints become the environment.  `initialize()`
is the `checkAuthentication` effect run on a fresh load. -/

structure LifecycleEnv where
  probeHttpOk : Bool
  probeSuccess : Bool
  probeAuthenticated : Option Bool
  banksOk : Bool
  deriving DecidableEq, Repr

structure HookState (α : Type) where
  client : ApiClientState
  loggedOut : Bool
  cache : Cache α
  isAuthenticated : Bool
  accounts : List Account
  transactions : List Txn
  totalBalance : String

/-- `logout()` (lines 742-816, success path): clear the UI-facing state, reset
the client token (which also removes the client cookie and localStorage auth
flag), delete every cache entry, call the logout endpoint (best-effort, no
local effect), and set the `logged_out` localStorage flag after navigating.
-/
def logout {α : Type} (st : HookState α) : HookState α :=
  { client := setToken (some "") st.client,
    loggedOut := true,
    cache := [],
    isAuthenticated := false,
    accounts := [],
    transactions := [],
    totalBalance := "$0.00" }

structure AuthCheckResult (α : Type) where
  state : HookState α
  fetchTriggered : Bool
  redirect : Option String

/-- The authenticated outcome of `checkAuthentication`: mark authenticated,
remove the `logged_out` flag, start `fetchData`, and redirect to the
dashboard when on the login surface. -/
def authSuccessResult {α : Type} (isLoginPage : Bool) (s : HookState α) : AuthCheckResult α :=
  { state := { s with isAuthenticated := true, loggedOut := false },
    fetchTriggered := true,
    redirect := if isLoginPage then some "/dashboard" else none }

/-- The unauthenticated outcome: mark unauthenticated and redirect to the
login page unless already on the login surface or the root page. -/
def notAuthResult {α : Type} (isLoginPage isRootPage : Bool) (s : HookState α) : AuthCheckResult α :=
  { state := { s with isAuthenticated := false },
    fetchTriggered := false,
    redirect := if !isLoginPage && !isRootPage then some "/login" else none }

/-- The HttpOnly-cookie check (lines 541-640): probe the test-connection
endpoint; on `success && authenticated` authenticate; otherwise, unless the
response carries `authenticated: false`, fall back to a direct banks call and
authenticate when it succeeds; else report unauthenticated.  The
`logged_out` flag is never consulted here. -/
def httpOnlyCheck {α : Type} (env : LifecycleEnv) (isLoginPage isRootPage : Bool)
    (s : HookState α) : AuthCheckResult α :=
  if env.probeHttpOk then
    if env.probeSuccess && env.probeAuthenticated == some true then
      authSuccessResult isLoginPage s
    else
      if (env.probeAuthenticated == none || env.probeAuthenticated != some false)
          && env.banksOk then
        authSuccessResult isLoginPage s
      else notAuthResult isLoginPage isRootPage s
  else notAuthResult isLoginPage isRootPage s

/-- `checkAuthentication` (lines 465-664) on a load where the auth check has
not yet completed: on the login surface the `logged_out` flag is cleared;
then a truthy client-visible cookie is adopted into the client and verified
via the probe, falling back to the HttpOnly-cookie check; with no client
cookie the HttpOnly-cookie check runs directly. -/
def checkAuthentication {α : Type} (env : LifecycleEnv) (isLoginPage isRootPage : Bool)
    (st : HookState α) : AuthCheckResult α :=
  let st₀ := if isLoginPage && st.loggedOut then { st with loggedOut := false } else st
  if optTruthy st₀.client.cookieToken then
    let st₁ := { st₀ with client := setToken st₀.client.cookieToken st₀.client }
    if env.probeHttpOk && (env.probeSuccess && env.probeAuthenticated == some true) then
      authSuccessResult isLoginPage st₁
    else httpOnlyCheck env isLoginPage isRootPage st₁
  else httpOnlyCheck env isLoginPage isRootPage st₀

/-- An environment with a still-valid server-side session: the probe responds
and reports authenticated. -/
def envStillValid : LifecycleEnv :=
  { probeHttpOk := true, probeSuccess := true, probeAuthenticated := some true,
    banksOk := true }

/-- A concrete authenticated pre-logout state. -/
def statePreLogout : HookState Nat :=
  { client := { token := some "tok", cookieToken := some "tok", localAuth := true },
    loggedOut := false,
    cache := [("banks", 0, 1)],
    isAuthenticated := true,
    accounts := [],
    transactions := [],
    totalBalance := "$0.00" }

/-- C7 (counterexample): after `logout()`, `hasCredential()` is false, the
cache is empty and the logged-out marker is set — but a subsequent
`initialize()` on a non-login page with a still-valid server-side session
re-authenticates and starts a data sync anyway: `checkAuthentication` never
consults the marker, so the claimed suppression of auto-re-authentication
does not hold. -/
theorem logout_c7_counterexample :
    hasToken (logout statePreLogout).client = false ∧
      (logout statePreLogout).cache = [] ∧
      (logout statePreLogout).loggedOut = true ∧
      (checkAuthentication envStillValid false false
        (logout statePreLogout)).state.isAuthenticated = true ∧
      (checkAuthentication envStillValid false false
        (logout statePreLogout)).fetchTriggered = true :=
  ⟨rfl, rfl, rfl, rfl, rfl⟩

/-- C7 (amended): after `logout()` completes, `hasCredential()` is false, the
resource cache has zero entries and the logged-out marker is set; however the
marker does not block re-authentication: a subsequent `initialize()` outside
the login surface re-authenticates (and triggers a sync) whenever the
server-side session is still valid, with the marker still set at entry — the
marker is only ever cleared (on the login surface or on a successful check),
never consulted to suppress re-authentication. -/
theorem logout_lifecycle_C7 {α : Type} (st : HookState α) (env : LifecycleEnv)
    (h₁ : env.probeHttpOk = true) (h₂ : env.probeSuccess = true)
    (h₃ : env.probeAuthenticated = some true) :
    hasToken (logout st).client = false ∧
      (logout st).cache = [] ∧
      (logout st).loggedOut = true ∧
      (checkAuthentication env false false (logout st)).state.isAuthenticated = true ∧
      (checkAuthentication env false false (logout st)).fetchTriggered = true := by
  refine ⟨rfl, rfl, rfl, ?_, ?_⟩
  · simp [checkAuthentication, httpOnlyCheck, authSuccessResult, logout, setToken,
      setTokenAsync, optTruthy, h₁, h₂, h₃]
  · simp [checkAuthentication, httpOnlyCheck, authSuccessResult, logout, setToken,
      setTokenAsync, optTruthy, h₁, h₂, h₃]

theorem logout_lifecycle_C7_witness :
    hasToken (logout statePreLogout).client = false ∧
      (logout statePreLogout).cache = [] ∧
      (logout statePreLogout).loggedOut = true ∧
      (checkAuthentication envStillValid false false
        (logout statePreLogout)).state.isAuthenticated = true ∧
      (checkAuthentication envStillValid false false
        (logout statePreLogout)).fetchTriggered = true :=
  logout_lifecycle_C7 statePreLogout envStillValid rfl rfl rfl

end BankCore
